import Mathlib

/-!
Verification development for the PyModMonLCD telemetry-to-display pipeline
(`pymodmon_cglcd_led_3.py`, color variant, and `pymodmon_glcd_led_3.py`,
monochrome variant).  The Python source is shallowly embedded: pure helper
functions become Lean functions, the stateful poll cycle becomes explicit
state passing, Python ints become `ℤ`/`ℕ`, Python floats are modelled
exactly as rationals (`ℚ`) except for the logarithmic gauge math, which is
modelled over `ℝ`, and raising an exception is modelled with `Except`.
-/

namespace PyModMonLCD

/-! ### Decoded values

A decoded register value in the Python source is a Python `int`
(integer type tags and the RAW/ENUM fall-through), a Python `float`
(the FIX1/FIX2/FIX3 scaling branches), a `str` (text type tags), or
`None` (the sentinel case); `None` is represented by `Option.none`
around this type. -/

inductive Value
  | intv (n : ℤ)
  | floatv (q : ℚ)
  | strv (s : String)
deriving DecidableEq

/-- Result of the `BinaryPayloadDecoder.decode_*` dispatch: a number or a
string (`interpreted` in the source). -/
inductive Interp
  | num (i : ℤ)
  | txt (s : String)
deriving DecidableEq

/-! ### Register decoding (`BinaryPayloadDecoder`, big-endian words and bytes)

Each `decode_*` helper consumes a fixed number of 16-bit words from the
register payload; a payload shorter than required raises in Python
(`struct.error`), modelled as `none`. -/

/-- Two's-complement reading of an unsigned value `w < 2^bits`. -/
def toSigned (bits : ℕ) (w : ℕ) : ℤ :=
  if w < 2 ^ (bits - 1) then (w : ℤ) else (w : ℤ) - 2 ^ bits

def decode_16bit_uint : List ℕ → Option ℤ
  | w0 :: _ => some (w0 : ℤ)
  | _ => none

def decode_16bit_int : List ℕ → Option ℤ
  | w0 :: _ => some (toSigned 16 w0)
  | _ => none

def decode_32bit_uint : List ℕ → Option ℤ
  | w0 :: w1 :: _ => some ((w0 * 65536 + w1 : ℕ) : ℤ)
  | _ => none

def decode_32bit_int : List ℕ → Option ℤ
  | w0 :: w1 :: _ => some (toSigned 32 (w0 * 65536 + w1))
  | _ => none

def decode_64bit_uint : List ℕ → Option ℤ
  | w0 :: w1 :: w2 :: w3 :: _ =>
      some ((((w0 * 65536 + w1) * 65536 + w2) * 65536 + w3 : ℕ) : ℤ)
  | _ => none

/-- The bytes of a big-endian 16-bit word stream (high byte first). -/
def wordBytes : List ℕ → List ℕ
  | [] => []
  | w :: ws => w / 256 :: w % 256 :: wordBytes ws

/-- Strip leading and trailing NUL characters (Python `str.strip('\x00')`). -/
def stripNuls (cs : List Char) : List Char :=
  ((cs.dropWhile (· = '\x00')).reverse.dropWhile (· = '\x00')).reverse

/-- `decode_string(n).decode("utf-8").strip('\x00')`: take `n` bytes from the
payload (raising, i.e. `none`, when fewer are available).  Byte-to-character
decoding is modelled one byte per character; multi-byte UTF-8 sequences are
not exercised by any claim. -/
def decode_string (n : ℕ) (ws : List ℕ) : Option String :=
  let bs := wordBytes ws
  if bs.length < n then none
  else some (String.mk (stripNuls ((bs.take n).map Char.ofNat)))

/-! ### The per-row type dispatch of `pollTargetData`

Both variants select a decoder from `thisrow[1]`; the mono (`glcd`) variant
additionally recognises `STR24`.  An unrecognised tag falls through to
`decode_16bit_uint` ("raw interpretation"). -/

def interpret_cglcd (tag : String) (ws : List ℕ) : Option Interp :=
  if tag = "S32" then (decode_32bit_int ws).map .num
  else if tag = "U32" then (decode_32bit_uint ws).map .num
  else if tag = "U64" then (decode_64bit_uint ws).map .num
  else if tag = "STR32" then (decode_string 32 ws).map .txt
  else if tag = "S16" then (decode_16bit_int ws).map .num
  else if tag = "U16" then (decode_16bit_uint ws).map .num
  else (decode_16bit_uint ws).map .num

def interpret_glcd (tag : String) (ws : List ℕ) : Option Interp :=
  if tag = "S32" then (decode_32bit_int ws).map .num
  else if tag = "U32" then (decode_32bit_uint ws).map .num
  else if tag = "U64" then (decode_64bit_uint ws).map .num
  else if tag = "STR32" then (decode_string 32 ws).map .txt
  else if tag = "STR24" then (decode_string 24 ws).map .txt
  else if tag = "S16" then (decode_16bit_int ws).map .num
  else if tag = "U16" then (decode_16bit_uint ws).map .num
  else (decode_16bit_uint ws).map .num

/-! ### Sentinel check and format scaling -/

def MIN_SIGNED : ℤ := -2147483648
def MAX_UNSIGNED : ℤ := 4294967295

/-- The `thisrow[2]` format dispatch applied to a numeric `interpreted`
value: `FIX3`/`FIX2`/`FIX1` produce a Python float (`float(interpreted)`
divided by 1000/100/10), every other tag leaves the value untouched
(still a Python int). -/
def formatScale (fmt : String) (i : ℤ) : Value :=
  if fmt = "FIX3" then .floatv ((i : ℚ) / 1000)
  else if fmt = "FIX2" then .floatv ((i : ℚ) / 100)
  else if fmt = "FIX1" then .floatv ((i : ℚ) / 10)
  else .intv i

/-- The "check for None data before doing anything else" step followed by
the format dispatch, for a numeric `interpreted` value. -/
def numericDecode (fmt : String) (i : ℤ) : Option Value :=
  if i = MIN_SIGNED ∨ i = MAX_UNSIGNED then none
  else some (formatScale fmt i)

/-- Python `float()` applied to the text of a string register, modelled for
plain decimal strings (optional sign, digits, optional fractional part);
anything else raises `ValueError`, modelled as `none`.  No claim exercises
this path (text rows carry non-FIX format tags). -/
def parseDigits : List Char → Option ℕ
  | [] => none
  | cs =>
      cs.foldl
        (fun acc c =>
          acc.bind fun n => if c.isDigit then some (10 * n + (c.toNat - 48)) else none)
        (some 0)

def parseUnsignedFloat (cs : List Char) : Option ℚ :=
  match cs.span (· ≠ '.') with
  | (intPart, []) => (parseDigits intPart).map (fun n => (n : ℚ))
  | (intPart, _dot :: frac) =>
      (parseDigits intPart).bind fun a =>
        (parseDigits frac).map fun f =>
          (a : ℚ) + (f : ℚ) / (10 : ℚ) ^ frac.length

def pyFloatOfString (s : String) : Option ℚ :=
  match s.data with
  | '-' :: rest => (parseUnsignedFloat rest).map Neg.neg
  | cs => parseUnsignedFloat cs

/-- The sentinel-check-plus-format step applied to a string `interpreted`
value: the equality tests against the integer sentinels are `False` in
Python, and the FIX branches call `float(interpreted)` (raising on
non-numeric text) before dividing. -/
def textDecode (fmt : String) (s : String) : Except Unit (Option Value) :=
  if fmt = "FIX3" then
    match pyFloatOfString s with
    | some q => .ok (some (.floatv (q / 1000)))
    | none => .error ()
  else if fmt = "FIX2" then
    match pyFloatOfString s with
    | some q => .ok (some (.floatv (q / 100)))
    | none => .error ()
  else if fmt = "FIX1" then
    match pyFloatOfString s with
    | some q => .ok (some (.floatv (q / 10)))
    | none => .error ()
  else .ok (some (.strv s))

/-- One field's decode step of `pollTargetData` after a successful register
read: type dispatch, sentinel check, format scaling.  `Except.error` models
an uncaught Python exception (short payload or non-numeric text in a FIX
branch). -/
def decodeStep_cglcd (tag fmt : String) (ws : List ℕ) : Except Unit (Option Value) :=
  match interpret_cglcd tag ws with
  | none => .error ()
  | some (.num i) => .ok (numericDecode fmt i)
  | some (.txt s) => textDecode fmt s

def decodeStep_glcd (tag fmt : String) (ws : List ℕ) : Except Unit (Option Value) :=
  match interpret_glcd tag ws with
  | none => .error ()
  | some (.num i) => .ok (numericDecode fmt i)
  | some (.txt s) => textDecode fmt s

/-! ### Claims C1 and C2: sentinel rule and format scaling -/

/-- C1: for every row and raw payload, if the interpreted integer value
equals −2147483648 (`MIN_SIGNED`) or 4294967295 (`MAX_UNSIGNED`), the
decode step of `pollTargetData` yields `None` for that field regardless of
the row's typeTag and formatTag, and no scaling is applied. -/
theorem C1_sentinel_yields_null (tag fmt : String) (ws : List ℕ) (i : ℤ)
    (hsent : i = MIN_SIGNED ∨ i = MAX_UNSIGNED) :
    (interpret_cglcd tag ws = some (.num i) → decodeStep_cglcd tag fmt ws = .ok none) ∧
    (interpret_glcd tag ws = some (.num i) → decodeStep_glcd tag fmt ws = .ok none) := by
  refine ⟨fun h => ?_, fun h => ?_⟩ <;>
    simp [decodeStep_cglcd, decodeStep_glcd, h, numericDecode, hsent]

theorem C1_sentinel_yields_null_witness :
    ((4294967295 : ℤ) = MIN_SIGNED ∨ (4294967295 : ℤ) = MAX_UNSIGNED) ∧
    decodeStep_cglcd "U32" "FIX3" [65535, 65535] = .ok none ∧
    decodeStep_glcd "U32" "FIX3" [65535, 65535] = .ok none := by
  have h := C1_sentinel_yields_null "U32" "FIX3" [65535, 65535] 4294967295 (Or.inr rfl)
  exact ⟨Or.inr rfl, h.1 (by decide), h.2 (by decide)⟩

/-- C2: every non-Null numeric value is stored as `v/1000.0` under `FIX3`,
`v/100.0` under `FIX2`, `v/10.0` under `FIX1`, unchanged under any other
formatTag; `FIX3(12345) = 12.345`, `FIX2(12345) = 123.45`,
`FIX1(12345) = 1234.5`, `RAW(12345) = 12345`; a Null (sentinel) value
passes through unscaled and without an exception. -/
theorem C2_format_scaling :
    (∀ tag fmt (ws : List ℕ) (i : ℤ), i ≠ MIN_SIGNED → i ≠ MAX_UNSIGNED →
      (interpret_cglcd tag ws = some (.num i) →
        decodeStep_cglcd tag fmt ws = .ok (some (formatScale fmt i))) ∧
      (interpret_glcd tag ws = some (.num i) →
        decodeStep_glcd tag fmt ws = .ok (some (formatScale fmt i)))) ∧
    (∀ i : ℤ, formatScale "FIX3" i = .floatv ((i : ℚ) / 1000) ∧
      formatScale "FIX2" i = .floatv ((i : ℚ) / 100) ∧
      formatScale "FIX1" i = .floatv ((i : ℚ) / 10)) ∧
    (∀ fmt, fmt ≠ "FIX3" → fmt ≠ "FIX2" → fmt ≠ "FIX1" →
      ∀ i : ℤ, formatScale fmt i = .intv i) ∧
    formatScale "FIX3" 12345 = .floatv 12.345 ∧
    formatScale "FIX2" 12345 = .floatv 123.45 ∧
    formatScale "FIX1" 12345 = .floatv 1234.5 ∧
    formatScale "RAW" 12345 = .intv 12345 ∧
    (∀ fmt i, (i = MIN_SIGNED ∨ i = MAX_UNSIGNED) → numericDecode fmt i = none) := by
  refine ⟨?_, ?_, ?_, by simp only [formatScale, String.reduceEq, reduceIte]; norm_num,
    by simp only [formatScale, String.reduceEq, reduceIte]; norm_num,
    by simp only [formatScale, String.reduceEq, reduceIte]; norm_num, by decide, ?_⟩
  · intro tag fmt ws i h1 h2
    refine ⟨fun h => ?_, fun h => ?_⟩ <;>
      simp [decodeStep_cglcd, decodeStep_glcd, h, numericDecode, h1, h2]
  · intro i
    refine ⟨rfl, ?_, ?_⟩ <;> simp [formatScale]
  · intro fmt h1 h2 h3 i
    simp [formatScale, h1, h2, h3]
  · intro fmt i h
    simp [numericDecode, h]

theorem C2_format_scaling_witness :
    ((65538 : ℤ) ≠ MIN_SIGNED ∧ (65538 : ℤ) ≠ MAX_UNSIGNED) ∧
    decodeStep_cglcd "S32" "FIX3" [1, 2] = .ok (some (formatScale "FIX3" 65538)) ∧
    ("RAW" ≠ "FIX3" ∧ formatScale "RAW" 7 = .intv 7) := by
  refine ⟨⟨by decide, by decide⟩, ?_, by decide, ?_⟩
  · exact (C2_format_scaling.1 "S32" "FIX3" [1, 2] 65538 (by decide) (by decide)).1 (by decide)
  · exact C2_format_scaling.2.2.1 "RAW" (by decide) (by decide) (by decide) 7

/-! ### Claim C7: LED level mapping (`writeLoggerDataLCD`, LED section)

The two if/elif chains setting the green (PV yield, `ac_watts_i`) and red
(load, `load_wa_i`) LED levels, transcribed separately from the source.
They are identical in both source files. -/

def green_led_level (w : ℚ) : ℕ :=
  if w > 2200 then 7
  else if w > 1400 then 6
  else if w > 830 then 5
  else if w > 450 then 4
  else if w > 230 then 3
  else if w > 120 then 2
  else if w > 60 then 1
  else 0

def red_led_level (w : ℚ) : ℕ :=
  if w > 2200 then 7
  else if w > 1400 then 6
  else if w > 830 then 5
  else if w > 450 then 4
  else if w > 230 then 3
  else if w > 120 then 2
  else if w > 60 then 1
  else 0

set_option maxHeartbeats 1000000 in
/-- C7: the LED level mapping is the strictly increasing step function with
thresholds 60, 120, 230, 450, 830, 1400, 2200: the inputs
0, 61, 121, 231, 451, 831, 1401, 2201 map to levels 0..7, the mapping is
monotone, and the identical mapping is applied independently to the green
(yield) and red (load) channels. -/
theorem C7_led_step_function :
    (∀ w : ℚ, green_led_level w = red_led_level w) ∧
    (green_led_level 0 = 0 ∧ green_led_level 61 = 1 ∧ green_led_level 121 = 2 ∧
      green_led_level 231 = 3 ∧ green_led_level 451 = 4 ∧ green_led_level 831 = 5 ∧
      green_led_level 1401 = 6 ∧ green_led_level 2201 = 7) ∧
    (red_led_level 0 = 0 ∧ red_led_level 61 = 1 ∧ red_led_level 121 = 2 ∧
      red_led_level 231 = 3 ∧ red_led_level 451 = 4 ∧ red_led_level 831 = 5 ∧
      red_led_level 1401 = 6 ∧ red_led_level 2201 = 7) ∧
    (∀ x y : ℚ, x ≤ y → green_led_level x ≤ green_led_level y) := by
  refine ⟨fun w => rfl, ⟨?_, ?_, ?_, ?_, ?_, ?_, ?_, ?_⟩,
    ⟨?_, ?_, ?_, ?_, ?_, ?_, ?_, ?_⟩, ?_⟩
  · norm_num [green_led_level]
  · norm_num [green_led_level]
  · norm_num [green_led_level]
  · norm_num [green_led_level]
  · norm_num [green_led_level]
  · norm_num [green_led_level]
  · norm_num [green_led_level]
  · norm_num [green_led_level]
  · norm_num [red_led_level]
  · norm_num [red_led_level]
  · norm_num [red_led_level]
  · norm_num [red_led_level]
  · norm_num [red_led_level]
  · norm_num [red_led_level]
  · norm_num [red_led_level]
  · norm_num [red_led_level]
  · intro x y hxy
    unfold green_led_level
    split_ifs
    all_goals try norm_num
    all_goals exfalso
    all_goals linarith

theorem C7_led_step_function_witness :
    (0 : ℚ) ≤ 61 ∧ green_led_level 0 ≤ green_led_level 61 :=
  ⟨by norm_num, C7_led_step_function.2.2.2 0 61 (by norm_num)⟩

/-! ### Claim C9: the color pixel encoder (`CGLCD.convert_colors`) -/

/-- `CGLCD.convert_colors`, transcribed with the source's binary masks.
Input is the `(red, green, blue)` pixel tuple, output the list of bytes. -/
def convert_colors (colormode : String) (red green blue : ℕ) : List ℕ :=
  if colormode = "16bit" then
    [(0b11111000 &&& red) ||| (0b00000111 &&& (green >>> 5)),
     (0b11100000 &&& (green <<< 3)) ||| (0b00011111 &&& (blue >>> 3))]
  else
    [0b11111100 &&& red, 0b11111100 &&& green, 0b11111100 &&& blue]

/-- A power-of-two mask keeps a small value unchanged. -/
lemma and_mask_of_lt {x n : ℕ} (h : x < 2 ^ n) : (2 ^ n - 1) &&& x = x := by
  rw [Nat.and_comm]
  exact Nat.and_pow_two_sub_one_of_lt_two_pow h

/-- C9 counterexample: the claim asserts that RGB `(0xF8, 0xFC, 0xF8)`
encodes in 16-bit mode to `byte1 = 0xF8, byte2 = 0x9F`; the code (and the
claim's own formula) produce `[0xFF, 0xFF]`. -/
theorem C9_color_example_counterexample :
    convert_colors "16bit" 0xF8 0xFC 0xF8 = [0xFF, 0xFF] ∧
    convert_colors "16bit" 0xF8 0xFC 0xF8 ≠ [0xF8, 0x9F] := by
  constructor <;> decide

/-- C9 (amended): for every byte triple, 16-bit mode returns exactly
`byte1 = (r &&& 0xF8) ||| (g >>> 5)` and
`byte2 = ((g <<< 3) &&& 0xE0) ||| (b >>> 3)`; the triple
`(0xF8, 0xFC, 0xF8)` therefore encodes to `byte1 = 0xFF, byte2 = 0xFF`. -/
theorem C9_color_formula (r g b : ℕ) (hg : g < 256) (hb : b < 256) :
    convert_colors "16bit" r g b =
      [(r &&& 0xF8) ||| (g >>> 5), ((g <<< 3) &&& 0xE0) ||| (b >>> 3)] ∧
    convert_colors "16bit" 0xF8 0xFC 0xF8 = [0xFF, 0xFF] := by
  refine ⟨?_, by decide⟩
  have hg5 : g >>> 5 < 2 ^ 3 := by
    rw [Nat.shiftRight_eq_div_pow]
    omega
  have hb3 : b >>> 3 < 2 ^ 5 := by
    rw [Nat.shiftRight_eq_div_pow]
    omega
  have e1 : (0b00000111 : ℕ) &&& (g >>> 5) = g >>> 5 := and_mask_of_lt hg5
  have e2 : (0b00011111 : ℕ) &&& (b >>> 3) = b >>> 3 := and_mask_of_lt hb3
  simp only [convert_colors, reduceIte, e1, e2, Nat.and_comm 0b11111000 r,
    Nat.and_comm 0b11100000 (g <<< 3)]

theorem C9_color_formula_witness :
    (0xFC : ℕ) < 256 ∧ (0xF8 : ℕ) < 256 ∧
    convert_colors "16bit" 0xF8 0xFC 0xF8 =
      [(0xF8 &&& 0xF8) ||| (0xFC >>> 5), ((0xFC <<< 3) &&& 0xE0) ||| (0xF8 >>> 3)] :=
  ⟨by decide, by decide, (C9_color_formula 0xF8 0xFC 0xF8 (by decide) (by decide)).1⟩

/-! ### Claim C8: the monochrome page encoder (`GLCD.convert_image`)

The mono display is 128x64; `GLCD.__init__` sets `width = 128`,
`height = 64`, `pages = 8`.  `convert_image` reads the image pixel by pixel
(`pixels[(col, page*8+7-bit)]`) and emits one byte per page/column pair into
`lcd_image_data`, page-major and column-minor.  (The method also allocates a
fresh zero list into the unused attribute `lcd_image`; the data itself goes
to `lcd_image_data`, whose length `width*height/8` equals `width*pages` for
this geometry.)  The image is a function from column and row to the pixel
value. -/

def glcd_width : ℕ := 128
def glcd_pages : ℕ := 8

/-- The inner bit loop of `convert_image`: for `bit` in `[0..7]`,
`column <<= 1; column |= 0 if pixels[(col, page*8+7-bit)] == 0 else 1`. -/
def columnByte (pix : ℕ → ℕ → ℕ) (page col : ℕ) : ℕ :=
  [0, 1, 2, 3, 4, 5, 6, 7].foldl
    (fun column bit =>
      (column <<< 1) ||| (if pix col (page * 8 + 7 - bit) = 0 then 0 else 1)) 0

def convert_image (pix : ℕ → ℕ → ℕ) : List ℕ :=
  (List.range glcd_pages).flatMap fun page =>
    (List.range glcd_width).map fun col => columnByte pix page col

/-- The binary pixel indicator used by the bit loop. -/
def pixBit (pix : ℕ → ℕ → ℕ) (col row : ℕ) : ℕ := if pix col row = 0 then 0 else 1

/-- Reading a pixel back from the encoded byte stream: bit `row % 8` of the
byte at index `(row / 8) * width + col`. -/
def mono_decode (bytes : List ℕ) (col row : ℕ) : ℕ :=
  if (bytes.getD ((row / 8) * glcd_width + col) 0).testBit (row % 8) then 1 else 0

/-- An all-black image with a single set pixel. -/
def onePixel (row col : ℕ) : ℕ → ℕ → ℕ := fun c r => if c = col ∧ r = row then 1 else 0

lemma mul_two_or_bit (a j : ℕ) (hj : j ≤ 1) : a * 2 ||| j = a * 2 + j := by
  interval_cases j
  · simp
  · apply Nat.eq_of_testBit_eq
    intro i
    rw [Nat.testBit_or]
    cases i with
    | zero =>
      have h : (a * 2 + 1) % 2 = 1 := by omega
      have h2 : a * 2 % 2 = 0 := by omega
      rw [Nat.testBit_zero, Nat.testBit_zero, Nat.testBit_zero, h, h2]
      simp
    | succ n =>
      rw [Nat.testBit_add_one, Nat.testBit_add_one, Nat.testBit_add_one]
      have h1 : a * 2 / 2 = a := by omega
      have h2 : (a * 2 + 1) / 2 = a := by omega
      have h3 : (1 : ℕ) / 2 = 0 := by norm_num
      rw [h1, h2, h3]
      simp

/-- The byte produced by the bit loop is the base-2 sum of the eight binary
pixels of the page/column, bit `N` weighting `2^N` for row `page*8+N`. -/
lemma columnByte_eq (pix : ℕ → ℕ → ℕ) (page col : ℕ) :
    columnByte pix page col =
      pixBit pix col (page * 8) + 2 * pixBit pix col (page * 8 + 1) +
      4 * pixBit pix col (page * 8 + 2) + 8 * pixBit pix col (page * 8 + 3) +
      16 * pixBit pix col (page * 8 + 4) + 32 * pixBit pix col (page * 8 + 5) +
      64 * pixBit pix col (page * 8 + 6) + 128 * pixBit pix col (page * 8 + 7) := by
  have e6 : page * 8 + 7 - 1 = page * 8 + 6 := by omega
  have e5 : page * 8 + 7 - 2 = page * 8 + 5 := by omega
  have e4 : page * 8 + 7 - 3 = page * 8 + 4 := by omega
  have e3 : page * 8 + 7 - 4 = page * 8 + 3 := by omega
  have e2 : page * 8 + 7 - 5 = page * 8 + 2 := by omega
  have e1 : page * 8 + 7 - 6 = page * 8 + 1 := by omega
  have e0 : page * 8 + 7 - 7 = page * 8 := by omega
  have hb : ∀ r, (if pix col r = 0 then (0:ℕ) else 1) ≤ 1 := by
    intro r; split <;> norm_num
  simp only [columnByte, List.foldl_cons, List.foldl_nil, Nat.sub_zero,
    e6, e5, e4, e3, e2, e1, e0, Nat.shiftLeft_eq, pow_one]
  rw [mul_two_or_bit _ _ (hb (page * 8)), mul_two_or_bit _ _ (hb (page * 8 + 1)),
    mul_two_or_bit _ _ (hb (page * 8 + 2)), mul_two_or_bit _ _ (hb (page * 8 + 3)),
    mul_two_or_bit _ _ (hb (page * 8 + 4)), mul_two_or_bit _ _ (hb (page * 8 + 5)),
    mul_two_or_bit _ _ (hb (page * 8 + 6)), mul_two_or_bit _ _ (hb (page * 8 + 7))]
  simp only [pixBit]
  ring

lemma pixBit_eq_one_iff (pix : ℕ → ℕ → ℕ) (col row : ℕ) :
    pixBit pix col row = 1 ↔ pix col row ≠ 0 := by
  unfold pixBit
  split <;> simp_all

lemma pixBit_le_one (pix : ℕ → ℕ → ℕ) (col row : ℕ) : pixBit pix col row ≤ 1 := by
  unfold pixBit
  split <;> norm_num

lemma columnByte_testBit (pix : ℕ → ℕ → ℕ) (page col N : ℕ) (hN : N < 8) :
    (columnByte pix page col).testBit N = true ↔ pix col (page * 8 + N) ≠ 0 := by
  rw [columnByte_eq, Nat.testBit_to_div_mod]
  have h0 := pixBit_le_one pix col (page * 8)
  have h1 := pixBit_le_one pix col (page * 8 + 1)
  have h2 := pixBit_le_one pix col (page * 8 + 2)
  have h3 := pixBit_le_one pix col (page * 8 + 3)
  have h4 := pixBit_le_one pix col (page * 8 + 4)
  have h5 := pixBit_le_one pix col (page * 8 + 5)
  have h6 := pixBit_le_one pix col (page * 8 + 6)
  have h7 := pixBit_le_one pix col (page * 8 + 7)
  interval_cases N <;>
    rw [← pixBit_eq_one_iff] <;> simp only [decide_eq_true_eq] <;> norm_num <;> omega

lemma getD_flatten_const {α : Type} (d : α) (w : ℕ) :
    ∀ (L : List (List α)) (p c : ℕ), (∀ l ∈ L, l.length = w) → p < L.length → c < w →
      L.flatten.getD (p * w + c) d = (L.getD p []).getD c d := by
  intro L
  induction L with
  | nil => intro p c _ hp _; simp at hp
  | cons hd tl ih =>
    intro p c hw hp hc
    have hhd : hd.length = w := hw hd (by simp)
    cases p with
    | zero =>
      rw [List.flatten_cons, Nat.zero_mul, Nat.zero_add, List.getD_append]
      · simp
      · omega
    | succ p =>
      rw [List.flatten_cons, List.getD_append_right]
      · have e : (p + 1) * w + c - hd.length = p * w + c := by
          rw [hhd]; ring_nf; omega
        rw [e]
        have := ih p c (fun l hl => hw l (by simp [hl])) (by simpa using hp) hc
        simpa using this
      · rw [hhd]
        calc w ≤ (p + 1) * w := by nlinarith
        _ ≤ (p + 1) * w + c := by omega

lemma convert_image_length (pix : ℕ → ℕ → ℕ) : (convert_image pix).length = 1024 := by
  simp only [convert_image, List.length_flatMap, Function.comp_def, List.length_map,
    List.length_range]
  rfl

lemma convert_image_getD (pix : ℕ → ℕ → ℕ) (p c : ℕ) (hp : p < 8) (hc : c < 128) :
    (convert_image pix).getD (p * 128 + c) 0 = columnByte pix p c := by
  unfold convert_image List.flatMap
  rw [getD_flatten_const 0 128]
  · rw [List.getD_eq_getElem?_getD]
    simp only [List.getElem?_map, List.getElem?_range, hp, hc, glcd_width, glcd_pages]
    try rw [List.getD_eq_getElem?_getD]
    try simp [List.getElem?_map, List.getElem?_range, hc]
    try simp [List.getElem?_range, hp, hc]
  · intro l hl
    simp only [List.mem_map] at hl
    obtain ⟨a, _, rfl⟩ := hl
    simp [glcd_width]
  · simpa [glcd_pages] using hp
  · exact hc

lemma pixBit_onePixel (row col c r : ℕ) :
    pixBit (onePixel row col) c r = if c = col ∧ r = row then 1 else 0 := by
  unfold pixBit onePixel
  split_ifs with h1 h2 <;> simp_all

lemma columnByte_onePixel_target (q m col : ℕ) (hm : m < 8) :
    columnByte (onePixel (q * 8 + m) col) q col = 2 ^ m := by
  rw [columnByte_eq]
  simp only [pixBit_onePixel]
  interval_cases m <;> simp

lemma columnByte_onePixel_other (row col p c : ℕ) (hne : ¬(p = row / 8 ∧ c = col)) :
    columnByte (onePixel row col) p c = 0 := by
  rw [columnByte_eq]
  simp only [pixBit_onePixel]
  split_ifs <;> omega

/-- C8: for a 128x64 binary image the encoder emits `width * pages` bytes in
page-major, column-minor order; bit `N` of the byte for page `p`, column `c`
equals the pixel at row `p*8+N`, column `c` (bit 0 = top row of the page); a
single set pixel at `(row, col)` produces exactly one set bit, at position
`row % 8` in the byte at index `(row/8)*width + col`; and the encoding is
inverted exactly by `mono_decode`. -/
theorem C8_mono_page_encoder (pix : ℕ → ℕ → ℕ)
    (hbin : ∀ c r, pix c r = 0 ∨ pix c r = 1) :
    (convert_image pix).length = glcd_width * glcd_pages ∧
    (∀ p c N, p < 8 → c < 128 → N < 8 →
      (((convert_image pix).getD (p * 128 + c) 0).testBit N = true ↔
        pix c (p * 8 + N) = 1)) ∧
    (∀ row col, row < 64 → col < 128 →
      mono_decode (convert_image pix) col row = pix col row) ∧
    (∀ row col, row < 64 → col < 128 →
      (convert_image (onePixel row col)).getD (row / 8 * 128 + col) 0 = 2 ^ (row % 8) ∧
      ∀ j, j < 1024 → j ≠ row / 8 * 128 + col →
        (convert_image (onePixel row col)).getD j 0 = 0) := by
  have hbit : ∀ p c N, p < 8 → c < 128 → N < 8 →
      (((convert_image pix).getD (p * 128 + c) 0).testBit N = true ↔
        pix c (p * 8 + N) = 1) := by
    intro p c N hp hc hN
    rw [convert_image_getD pix p c hp hc, columnByte_testBit pix p c N hN]
    rcases hbin c (p * 8 + N) with h | h <;> simp [h]
  refine ⟨by rw [convert_image_length]; rfl, hbit, ?_, ?_⟩
  · intro row col hrow hcol
    have hp : row / 8 < 8 := by omega
    have hN : row % 8 < 8 := by omega
    have hrc : row / 8 * 8 + row % 8 = row := by omega
    unfold mono_decode
    have := hbit (row / 8) col (row % 8) hp hcol hN
    rw [hrc] at this
    simp only [glcd_width]
    rcases hbin col row with h | h
    · rw [if_neg]
      · omega
      · intro hb
        have := this.mp hb
        omega
    · rw [if_pos]
      · omega
      · exact this.mpr h
  · intro row col hrow hcol
    constructor
    · rw [convert_image_getD _ (row / 8) col (by omega) hcol]
      have h := columnByte_onePixel_target (row / 8) (row % 8) col (by omega)
      rw [show row / 8 * 8 + row % 8 = row from by omega] at h
      exact h
    · intro j hj hne
      have hdecomp : j = j / 128 * 128 + j % 128 := by omega
      have hjp : j / 128 < 8 := by omega
      have hjc : j % 128 < 128 := by omega
      rw [hdecomp, convert_image_getD _ (j / 128) (j % 128) hjp hjc]
      apply columnByte_onePixel_other
      rintro ⟨h1, h2⟩
      exact hne (by omega)

theorem C8_mono_page_encoder_witness :
    (∀ c r, onePixel 10 3 c r = 0 ∨ onePixel 10 3 c r = 1) ∧
    (convert_image (onePixel 10 3)).length = glcd_width * glcd_pages ∧
    (convert_image (onePixel 10 3)).getD (10 / 8 * 128 + 3) 0 = 2 ^ (10 % 8) := by
  have hbin : ∀ c r, onePixel 10 3 c r = 0 ∨ onePixel 10 3 c r = 1 := by
    intro c r
    unfold onePixel
    split <;> simp
  have h := C8_mono_page_encoder (onePixel 10 3) hbin
  exact ⟨hbin, h.1, (h.2.2.2 10 3 (by norm_num) (by norm_num)).1⟩

/-! ### Claim C10: the Null guards of `writeLoggerDataLCD`

`writeLoggerDataLCD` formats the six snapshot fields
(`data.datawritebuffer[0][0..5]`) into strings before drawing.  Fields 0-3
are guarded (`if ... != None` else `str(0)`), field 4 (`p_in_wa`) is
unguarded, and the guard selecting field 5 (`p_out_w`) tests field 4.  The
computed load then feeds the strings to numeric conversion:
`int(float(ac_watts)) + int(float(p_in_wa)) - int(float(p_out_w))` in the
color variant, `int(ac_watts) - int(p_out_w) + int(p_in_wa)` in the mono
variant.  A string variable is modelled by the kind of Python value it was
printed from, which is what the numeric conversions dispatch on:
`str(None) = "None"` raises in `float()`/`int()`, `str` of a number parses
back exactly (`int()` of a float's string always raises, the string carries
a decimal point), and arbitrary text parses only as a plain decimal
string. -/

inductive PyStr
  | noneStr
  | intStr (n : ℤ)
  | floatStr (q : ℚ)
  | rawStr (s : String)
deriving DecidableEq

def pyStrOf : Option Value → PyStr
  | none => .noneStr
  | some (.intv n) => .intStr n
  | some (.floatv q) => .floatStr q
  | some (.strv s) => .rawStr s

def pyFloatOfStr : PyStr → Except Unit ℚ
  | .noneStr => .error ()
  | .intStr n => .ok (n : ℚ)
  | .floatStr q => .ok q
  | .rawStr s =>
      match pyFloatOfString s with
      | some q => .ok q
      | none => .error ()

def pyIntOfString (s : String) : Option ℤ :=
  match s.data with
  | '-' :: rest => (parseDigits rest).map (fun n => -(n : ℤ))
  | cs => (parseDigits cs).map (fun n => (n : ℤ))

def pyIntOfStr : PyStr → Except Unit ℤ
  | .noneStr => .error ()
  | .intStr n => .ok n
  | .floatStr _ => .error ()
  | .rawStr s =>
      match pyIntOfString s with
      | some n => .ok n
      | none => .error ()

/-- Python `int()` truncation toward zero of an exact float value. -/
def ratTrunc (q : ℚ) : ℤ := if 0 ≤ q then ⌊q⌋ else ⌈q⌉

/-- Python `int()` applied directly to a decoded value
(`str(int(data.datawritebuffer[0][2]))`). -/
def pyIntOfValue : Value → Except Unit ℤ
  | .intv n => .ok n
  | .floatv q => .ok (ratTrunc q)
  | .strv s =>
      match pyIntOfString s with
      | some n => .ok n
      | none => .error ()

/-- The string-formatting prefix of `writeLoggerDataLCD` (identical in both
variants): guarded fields 0-3, unguarded field 4, field-5 guard testing
field 4. -/
def dc_volts_step (f2 : Option Value) : Except Unit PyStr :=
  match f2 with
  | some v => (pyIntOfValue v).map PyStr.intStr
  | none => .ok (.intStr 0)

structure LCDVars where
  dc_watts : PyStr
  ac_watts : PyStr
  dc_volts : PyStr
  e_wh : PyStr
  p_in_wa : PyStr
  p_out_w : PyStr
  load_wa_i : ℤ
deriving DecidableEq

/-- The `if ... != None: s = str(value) else: s = str(0)` guard applied to
snapshot fields 0, 1 and 3. -/
def guardStr (f : Option Value) : PyStr :=
  if f ≠ none then pyStrOf f else .intStr 0

/-- `p_out_w`: the guard selecting field 5 tests field 4 in the source. -/
def p_out_w_str (f4 f5 : Option Value) : PyStr :=
  if f4 ≠ none then pyStrOf f5 else .intStr 0

/-- The data-formatting and load-computation prefix of the color variant's
`writeLoggerDataLCD` (the rest of the method only draws these strings). -/
def writeLCDVars_cglcd (f0 f1 f2 f3 f4 f5 : Option Value) : Except Unit LCDVars := do
  let dc_watts := guardStr f0
  let ac_watts := guardStr f1
  let dc_volts ← dc_volts_step f2
  let e_wh := guardStr f3
  let p_in_wa := pyStrOf f4
  let p_out_w := p_out_w_str f4 f5
  let a ← pyFloatOfStr ac_watts
  let b ← pyFloatOfStr p_in_wa
  let c ← pyFloatOfStr p_out_w
  return ⟨dc_watts, ac_watts, dc_volts, e_wh, p_in_wa, p_out_w,
    ratTrunc a + ratTrunc b - ratTrunc c⟩

/-- The same prefix of the mono variant, whose load computation is
`int(ac_watts) - int(p_out_w) + int(p_in_wa)`. -/
def writeLCDVars_glcd (f0 f1 f2 f3 f4 f5 : Option Value) : Except Unit LCDVars := do
  let dc_watts := guardStr f0
  let ac_watts := guardStr f1
  let dc_volts ← dc_volts_step f2
  let e_wh := guardStr f3
  let p_in_wa := pyStrOf f4
  let p_out_w := p_out_w_str f4 f5
  let a ← pyIntOfStr ac_watts
  let c ← pyIntOfStr p_out_w
  let b ← pyIntOfStr p_in_wa
  return ⟨dc_watts, ac_watts, dc_volts, e_wh, p_in_wa, p_out_w, a - c + b⟩

lemma error_bind {α β : Type} (f : α → Except Unit β) (e : Unit) :
    (Except.error e >>= f) = Except.error e := rfl

lemma ok_bind {α β : Type} (f : α → Except Unit β) (x : α) :
    (Except.ok x >>= f) = f x := rfl

lemma map_ex_error {α β : Type} (f : α → β) (e : Unit) :
    (f <$> (Except.error e : Except Unit α)) = Except.error e := rfl

lemma map_ex_ok {α β : Type} (f : α → β) (x : α) :
    (f <$> (Except.ok x : Except Unit α)) = Except.ok (f x) := rfl

lemma ratTrunc_intCast (n : ℤ) : ratTrunc (n : ℚ) = n := by
  unfold ratTrunc
  split <;> simp

lemma ratTrunc_zero : ratTrunc 0 = 0 := by
  unfold ratTrunc
  norm_num

lemma bind_to_error {α β : Type} (e : Except Unit α) :
    (e >>= fun _ => (Except.error () : Except Unit β)) = Except.error () := by
  cases e with
  | error u => cases u; rfl
  | ok x => rfl

/-- C10: the substitute-zero-for-Null guard covers snapshot fields 0-3
only: a snapshot whose field 4 (power from grid) is Null makes the render
prefix raise (the string "None" reaches numeric conversion) instead of
substituting 0; the guard selecting field 5 (power to grid) tests field 4,
so field 4 non-Null with field 5 Null also raises; with fields 0-3 Null and
numeric fields 4 and 5 the substitution succeeds, in both variants. -/
theorem C10_null_guard_gap :
    (∀ f0 f1 f2 f3 f5, writeLCDVars_cglcd f0 f1 f2 f3 none f5 = .error () ∧
      writeLCDVars_glcd f0 f1 f2 f3 none f5 = .error ()) ∧
    (∀ f0 f1 f2 f3 v4, writeLCDVars_cglcd f0 f1 f2 f3 (some v4) none = .error () ∧
      writeLCDVars_glcd f0 f1 f2 f3 (some v4) none = .error ()) ∧
    (∀ p q : ℤ,
      writeLCDVars_cglcd none none none none (some (.intv p)) (some (.intv q)) =
        .ok ⟨.intStr 0, .intStr 0, .intStr 0, .intStr 0, .intStr p, .intStr q, 0 + p - q⟩ ∧
      writeLCDVars_glcd none none none none (some (.intv p)) (some (.intv q)) =
        .ok ⟨.intStr 0, .intStr 0, .intStr 0, .intStr 0, .intStr p, .intStr q, 0 - q + p⟩) := by
  refine ⟨?_, ?_, ?_⟩
  · intro f0 f1 f2 f3 f5
    constructor
    · unfold writeLCDVars_cglcd
      rcases h2 : dc_volts_step f2 with u | x
      · cases u
        simp [h2, error_bind]
      · rcases ha : pyFloatOfStr (guardStr f1) with u | y
        · cases u
          simp [h2, ha, error_bind, ok_bind]
        · simp [h2, ha, error_bind, ok_bind, bind_to_error, pyStrOf, pyFloatOfStr]
    · unfold writeLCDVars_glcd
      rcases h2 : dc_volts_step f2 with u | x
      · cases u
        simp [h2, error_bind]
      · rcases ha : pyIntOfStr (guardStr f1) with u | y
        · cases u
          simp [h2, ha, error_bind, ok_bind]
        · simp [h2, ha, error_bind, ok_bind, bind_to_error, pyStrOf, pyIntOfStr,
            p_out_w_str]
  · intro f0 f1 f2 f3 v4
    constructor
    · unfold writeLCDVars_cglcd
      rcases h2 : dc_volts_step f2 with u | x
      · cases u
        simp [h2, error_bind]
      · rcases ha : pyFloatOfStr (guardStr f1) with u | y
        · cases u
          simp [h2, ha, error_bind, ok_bind]
        · rcases hb : pyFloatOfStr (pyStrOf (some v4)) with u | z
          · cases u
            simp [h2, ha, hb, error_bind, ok_bind, bind_to_error]
          · simp [h2, ha, hb, error_bind, ok_bind, bind_to_error, pyStrOf,
              pyFloatOfStr, p_out_w_str]
    · unfold writeLCDVars_glcd
      rcases h2 : dc_volts_step f2 with u | x
      · cases u
        simp [h2, error_bind]
      · rcases ha : pyIntOfStr (guardStr f1) with u | y
        · cases u
          simp [h2, ha, error_bind, ok_bind]
        · simp [h2, ha, error_bind, ok_bind, bind_to_error, pyStrOf, pyIntOfStr,
            p_out_w_str]
  · intro p q
    constructor
    · simp [writeLCDVars_cglcd, dc_volts_step, guardStr, p_out_w_str, pyStrOf,
        pyFloatOfStr, pyIntOfStr, error_bind, ok_bind, map_ex_ok, ratTrunc_intCast,
        ratTrunc_zero]
    · simp [writeLCDVars_glcd, dc_volts_step, guardStr, p_out_w_str, pyStrOf,
        pyFloatOfStr, pyIntOfStr, error_bind, ok_bind, map_ex_ok, ratTrunc_intCast,
        ratTrunc_zero]

/-! ### Claims C3 and C4: the poll cycle (`pollTargetData` /
`runCommunication`, color variant) and the register-count lookup

The cycle walks `data.datasets[1:]`; for each row it evaluates
`data.moddatatype[thisrow[1]]` *inside* the connection `try` (a `KeyError`
for an unrecognised tag is caught by the bare `except` and reported as
"Connection not possible"), then reads the registers.  The network outcome
of each row is an input of the model (`RowResp`).  On success
`fromRegisters` resets `message_errorcounter` to 0; an error response or an
invalid payload increments it and returns; after all rows the cycle
publishes `datavector` wholesale into `datawritebuffer` and renders.
`runCommunication` always arms the next timer with `float(loginterval)`
after `pollTargetData` returns; an uncaught exception (`CycleExit.exn`, or
a raising render step) skips the arming and kills the scheduler. -/

def moddatatype_cglcd (tag : String) : Option ℕ :=
  if tag = "S32" then some 2
  else if tag = "U32" then some 2
  else if tag = "U64" then some 4
  else if tag = "STR32" then some 16
  else if tag = "S16" then some 1
  else if tag = "U16" then some 1
  else none

def moddatatype_glcd (tag : String) : Option ℕ :=
  if tag = "S32" then some 2
  else if tag = "U32" then some 2
  else if tag = "U64" then some 4
  else if tag = "STR32" then some 16
  else if tag = "STR24" then some 12
  else if tag = "S16" then some 1
  else if tag = "U16" then some 1
  else none

structure FieldRow where
  address : ℕ
  typeTag : String
  formatTag : String
deriving DecidableEq

/-- Outcome of the Modbus read for one row (an input of the cycle model):
the request raises (connection failure), returns an error response
(`received.isError()`), yields data `fromRegisters` rejects, or yields a
good register payload. -/
inductive RowResp
  | connFail
  | recvError
  | invalid
  | ok (ws : List ℕ)
deriving DecidableEq

structure PollState where
  message_errorcounter : ℕ
  datavector : List (Option Value)
  databuffer : List (List (Option Value))
  datawritebuffer : List (List (Option Value))
deriving DecidableEq

inductive CycleExit
  | completed
  | connAbort
  | recvAbort
  | invalidAbort
  | exn
deriving DecidableEq

def pollRows_cglcd : List (FieldRow × RowResp) → PollState → PollState × CycleExit
  | [], s =>
      ({ s with databuffer := [],
                datawritebuffer := s.databuffer ++ [s.datavector] }, .completed)
  | (row, resp) :: rest, s =>
      match moddatatype_cglcd row.typeTag with
      | none => (s, .connAbort)
      | some _count =>
          match resp with
          | .connFail => (s, .connAbort)
          | .recvError =>
              ({ s with message_errorcounter := s.message_errorcounter + 1 }, .recvAbort)
          | .invalid =>
              ({ s with message_errorcounter := s.message_errorcounter + 1 }, .invalidAbort)
          | .ok ws =>
              let s1 := { s with message_errorcounter := 0 }
              match decodeStep_cglcd row.typeTag row.formatTag ws with
              | .error _ => (s1, .exn)
              | .ok v => pollRows_cglcd rest { s1 with datavector := s1.datavector ++ [v] }

def pollTargetData_cglcd (items : List (FieldRow × RowResp)) (s : PollState) :
    PollState × CycleExit :=
  pollRows_cglcd items { s with datavector := [] }

/-- Whether the render step raises on the freshly published snapshot
(`writeLoggerDataLCD` is called by `pollTargetData` right after the buffer
swap; the drawing and SPI parts are external collaborators, the raising
part is the string/number formatting modelled by `writeLCDVars_cglcd`). -/
def renderRaises_cglcd (s : PollState) : Bool :=
  match s.datawritebuffer with
  | [] => true
  | v :: _ =>
      match writeLCDVars_cglcd (v.getD 0 none) (v.getD 1 none) (v.getD 2 none)
          (v.getD 3 none) (v.getD 4 none) (v.getD 5 none) with
      | .error _ => true
      | .ok _ => false

/-- `runCommunication`: connect, poll, close, then
`Timer(float(data.loginterval), ...)`; the second component is the armed
timer interval (`none` when an uncaught exception prevented arming). -/
def runCommunication_cglcd (items : List (FieldRow × RowResp)) (loginterval : ℚ)
    (s : PollState) : PollState × Option ℚ :=
  let r := pollTargetData_cglcd items s
  match r.2 with
  | .exn => (r.1, none)
  | .completed => (r.1, if renderRaises_cglcd r.1 then none else some loginterval)
  | _ => (r.1, some loginterval)

/-- A row whose register-count lookup, read and decode all succeed. -/
def itemOk_cglcd (x : FieldRow × RowResp) : Bool :=
  (moddatatype_cglcd x.1.typeTag).isSome &&
    match x.2 with
    | .ok ws =>
        match decodeStep_cglcd x.1.typeTag x.1.formatTag ws with
        | .ok _ => true
        | .error _ => false
    | _ => false

/-- The decoded value of a successful row. -/
def decodedOf_cglcd (x : FieldRow × RowResp) : Option Value :=
  match x.2 with
  | .ok ws =>
      match decodeStep_cglcd x.1.typeTag x.1.formatTag ws with
      | .ok v => v
      | .error _ => none
  | _ => none

lemma pollRows_ok_front (pre : List (FieldRow × RowResp))
    (hpre : ∀ x ∈ pre, itemOk_cglcd x = true) :
    ∀ (rest : List (FieldRow × RowResp)) (s : PollState),
      pollRows_cglcd (pre ++ rest) s =
        pollRows_cglcd rest
          { s with
            message_errorcounter :=
              if pre = [] then s.message_errorcounter else 0,
            datavector := s.datavector ++ pre.map decodedOf_cglcd } := by
  induction pre with
  | nil => intro rest s; simp
  | cons hd tl ih =>
    intro rest s
    have hhd : itemOk_cglcd hd = true := hpre hd (by simp)
    unfold itemOk_cglcd at hhd
    rcases hmt : moddatatype_cglcd hd.1.typeTag with _ | cnt
    · rw [hmt] at hhd
      simp at hhd
    · rcases hresp : hd.2 with _ | _ | _ | ws
      all_goals rw [hmt, hresp] at hhd
      all_goals simp only [Option.isSome_some, Bool.true_and] at hhd
      all_goals try simp_all
      rcases hdec : decodeStep_cglcd hd.1.typeTag hd.1.formatTag ws with u | v
      · rw [hdec] at hhd
        simp at hhd
      · obtain ⟨row, resp⟩ := hd
        simp only at hmt hresp hdec
        subst hresp
        show pollRows_cglcd ((row, .ok ws) :: (tl ++ rest)) s = _
        rw [pollRows_cglcd]
        simp only [hmt, hdec]
        rw [ih]
        simp only [List.map_cons, decodedOf_cglcd, hdec]
        congr 1
        simp [List.append_assoc]

/-- C3 counterexample: a cycle whose first field suffers a connection
failure leaves `message_errorcounter` unchanged at 0 instead of
incrementing it by exactly 1 as the claim states (only the receive-error
and invalid-data paths increment). -/
theorem C3_conn_failure_not_counted :
    (pollTargetData_cglcd [(⟨30775, "U32", "FIX0"⟩, RowResp.connFail)]
        ⟨0, [], [], [[some (.intv 1)]]⟩).1.message_errorcounter = 0 ∧
    (pollTargetData_cglcd [(⟨30775, "U32", "FIX0"⟩, RowResp.connFail)]
        ⟨0, [], [], [[some (.intv 1)]]⟩).1.message_errorcounter ≠ 0 + 1 := by
  constructor <;> decide

/-- C3 (amended): a decode failure (error response or invalid payload) on a
field increments `message_errorcounter` by exactly 1 over its value when
the field is processed (an earlier successfully received field in the same
cycle has already reset it to 0), abandons the cycle leaving the published
snapshot (`datawritebuffer`) and `databuffer` unchanged, and the scheduler
still arms the next cycle after `loginterval`; a connection failure
likewise abandons the cycle, leaves the snapshot unchanged and still
reschedules, but does not change the counter; a fully successful non-empty
cycle ends with the counter at 0 and replaces the snapshot wholesale. -/
theorem C3_cycle_failure_policy :
    (∀ pre row resp rest s (li : ℚ), (∀ x ∈ pre, itemOk_cglcd x = true) →
      (moddatatype_cglcd row.typeTag).isSome = true →
      (resp = RowResp.recvError ∨ resp = RowResp.invalid) →
      (pollTargetData_cglcd (pre ++ (row, resp) :: rest) s).1.message_errorcounter =
        (if pre = [] then s.message_errorcounter else 0) + 1 ∧
      (pollTargetData_cglcd (pre ++ (row, resp) :: rest) s).1.datawritebuffer =
        s.datawritebuffer ∧
      (pollTargetData_cglcd (pre ++ (row, resp) :: rest) s).1.databuffer =
        s.databuffer ∧
      (pollTargetData_cglcd (pre ++ (row, resp) :: rest) s).2 ≠ CycleExit.completed ∧
      (runCommunication_cglcd (pre ++ (row, resp) :: rest) li s).2 = some li) ∧
    (∀ pre row rest s (li : ℚ), (∀ x ∈ pre, itemOk_cglcd x = true) →
      (pollTargetData_cglcd (pre ++ (row, RowResp.connFail) :: rest) s).1.message_errorcounter =
        (if pre = [] then s.message_errorcounter else 0) ∧
      (pollTargetData_cglcd (pre ++ (row, RowResp.connFail) :: rest) s).1.datawritebuffer =
        s.datawritebuffer ∧
      (pollTargetData_cglcd (pre ++ (row, RowResp.connFail) :: rest) s).1.databuffer =
        s.databuffer ∧
      (pollTargetData_cglcd (pre ++ (row, RowResp.connFail) :: rest) s).2 =
        CycleExit.connAbort ∧
      (runCommunication_cglcd (pre ++ (row, RowResp.connFail) :: rest) li s).2 = some li) ∧
    (∀ items s, items ≠ [] → (∀ x ∈ items, itemOk_cglcd x = true) →
      (pollTargetData_cglcd items s).1.message_errorcounter = 0 ∧
      (pollTargetData_cglcd items s).1.datawritebuffer =
        s.databuffer ++ [items.map decodedOf_cglcd] ∧
      (pollTargetData_cglcd items s).1.databuffer = [] ∧
      (pollTargetData_cglcd items s).2 = CycleExit.completed) := by
  refine ⟨?_, ?_, ?_⟩
  · intro pre row resp rest s li hpre hsome hresp
    obtain ⟨cnt, hc⟩ := Option.isSome_iff_exists.mp hsome
    have hstep : ∀ s2 : PollState,
        pollRows_cglcd ((row, resp) :: rest) s2 =
          ({ s2 with message_errorcounter := s2.message_errorcounter + 1 },
            if resp = RowResp.recvError then CycleExit.recvAbort
            else CycleExit.invalidAbort) := by
      intro s2
      rcases hresp with rfl | rfl <;> rw [pollRows_cglcd] <;> simp [hc]
    have hpoll : pollTargetData_cglcd (pre ++ (row, resp) :: rest) s =
        ({ s with
            message_errorcounter :=
              (if pre = [] then s.message_errorcounter else 0) + 1,
            datavector := pre.map decodedOf_cglcd },
          if resp = RowResp.recvError then CycleExit.recvAbort
          else CycleExit.invalidAbort) := by
      unfold pollTargetData_cglcd
      rw [pollRows_ok_front pre hpre, hstep]
      rcases pre with _ | ⟨a, b⟩ <;> simp
    refine ⟨?_, ?_, ?_, ?_, ?_⟩
    · rw [hpoll]
    · rw [hpoll]
    · rw [hpoll]
    · rw [hpoll]
      rcases hresp with rfl | rfl <;> simp
    · unfold runCommunication_cglcd
      rw [hpoll]
      rcases hresp with rfl | rfl <;> simp
  · intro pre row rest s li hpre
    have hstep : ∀ s2 : PollState,
        pollRows_cglcd ((row, RowResp.connFail) :: rest) s2 = (s2, CycleExit.connAbort) := by
      intro s2
      rw [pollRows_cglcd]
      rcases hmt : moddatatype_cglcd row.typeTag with _ | cnt <;> simp
    have hpoll : pollTargetData_cglcd (pre ++ (row, RowResp.connFail) :: rest) s =
        ({ s with
            message_errorcounter := if pre = [] then s.message_errorcounter else 0,
            datavector := pre.map decodedOf_cglcd },
          CycleExit.connAbort) := by
      unfold pollTargetData_cglcd
      rw [pollRows_ok_front pre hpre, hstep]
      rcases pre with _ | ⟨a, b⟩ <;> simp
    refine ⟨?_, ?_, ?_, ?_, ?_⟩
    · rw [hpoll]
    · rw [hpoll]
    · rw [hpoll]
    · rw [hpoll]
    · unfold runCommunication_cglcd
      rw [hpoll]
  · intro items s hne hok
    have hpoll : pollTargetData_cglcd items s =
        ({ s with
            message_errorcounter := 0,
            datavector := items.map decodedOf_cglcd,
            databuffer := [],
            datawritebuffer := s.databuffer ++ [items.map decodedOf_cglcd] },
          CycleExit.completed) := by
      unfold pollTargetData_cglcd
      rw [show items = items ++ [] from (List.append_nil items).symm] at hne ⊢
      rw [pollRows_ok_front items hok]
      rw [pollRows_cglcd]
      rcases items with _ | ⟨a, b⟩
      · simp at hne
      · simp
    exact ⟨by rw [hpoll], by rw [hpoll], by rw [hpoll], by rw [hpoll]⟩

theorem C3_cycle_failure_policy_witness :
    (∀ x ∈ ([] : List (FieldRow × RowResp)), itemOk_cglcd x = true) ∧
    (moddatatype_cglcd "U32").isSome = true ∧
    ((RowResp.recvError = RowResp.recvError ∨ RowResp.recvError = RowResp.invalid) ∧
      (pollTargetData_cglcd [(⟨30775, "U32", "FIX0"⟩, RowResp.recvError)]
          ⟨0, [], [], []⟩).1.message_errorcounter =
        (if ([] : List (FieldRow × RowResp)) = [] then (0 : ℕ) else 0) + 1) := by
  have h := C3_cycle_failure_policy.1 [] ⟨30775, "U32", "FIX0"⟩ RowResp.recvError []
    ⟨0, [], [], []⟩ 5 (by simp) (by decide) (Or.inl rfl)
  exact ⟨by simp, by decide, Or.inl rfl, h.1⟩

/-- C4: the decode dispatch itself does fall back to raw unsigned-16-bit
interpretation for an unrecognised typeTag, but in `pollTargetData` such a
row never reaches decoding: the `data.moddatatype[thisrow[1]]` lookup
raises `KeyError` inside the connection `try`, so the row is reported as
"Connection not possible" and the cycle is abandoned (counter and snapshot
untouched) — contradicting the claim that no failure path is taken. -/
theorem C4_unknown_typetag_aborts_cycle :
    interpret_cglcd "X99" [5, 7] = some (.num 5) ∧
    interpret_glcd "X99" [5, 7] = some (.num 5) ∧
    decodeStep_cglcd "X99" "RAW" [5, 7] = .ok (some (.intv 5)) ∧
    moddatatype_cglcd "X99" = none ∧
    moddatatype_glcd "X99" = none ∧
    pollTargetData_cglcd [(⟨30775, "X99", "RAW"⟩, RowResp.ok [5, 7])]
        ⟨0, [], [], [[some (.intv 1)]]⟩ =
      (⟨0, [], [], [[some (.intv 1)]]⟩, CycleExit.connAbort) := by
  exact ⟨by decide, by decide, by rfl, by decide, by decide, by decide⟩

/-! ### Claims C5 and C6: the logarithmic gauge (`writeLoggerDataLCD`,
graphical mode)

Both variants convert the watt value to kW, compensate low values, guard
against non-positive arguments, cap at 10 kW, and compute
`int(-((math.pi/2*(1-math.log10(v)))/math.pi*180))`.  The color variant
compensates with `v*0.9 + 0.1` for `v < 1`; the mono variant adds `0.1`
for `v < 0.9` and first truncates the watt value with `int()`.  The float
math is idealised over `ℝ`. -/

noncomputable def gauge_angle (v : ℝ) : ℝ :=
  -((Real.pi / 2 * (1 - Real.logb 10 v)) / Real.pi * 180)

/-- Python `int()` truncation toward zero. -/
noncomputable def pyIntR (x : ℝ) : ℤ := if 0 ≤ x then ⌊x⌋ else ⌈x⌉

noncomputable def compensate_cglcd (v : ℝ) : ℝ :=
  let v1 := if v < 1 then v * 0.9 + 0.1 else v
  let v2 := if v1 ≤ 0 then 0.1 else v1
  if 10.0 ≤ v2 then 10.0 else v2

noncomputable def compensate_glcd (v : ℝ) : ℝ :=
  let v1 := if v < 0.9 then v + 0.1 else v
  let v2 := if v1 ≤ 0 then 0.1 else v1
  if 10.0 ≤ v2 then 10.0 else v2

noncomputable def loadAngle_cglcd (watts : ℝ) : ℤ :=
  pyIntR (gauge_angle (compensate_cglcd (watts / 1000)))

noncomputable def loadAngle_glcd (watts : ℝ) : ℤ :=
  pyIntR (gauge_angle (compensate_glcd (((pyIntR watts : ℤ) : ℝ) / 1000)))

lemma gauge_angle_eq (v : ℝ) : gauge_angle v = 90 * Real.logb 10 v - 90 := by
  unfold gauge_angle
  have hpi := Real.pi_ne_zero
  field_simp
  ring

lemma pyIntR_intCast (m : ℤ) : pyIntR (m : ℝ) = m := by
  unfold pyIntR
  split <;> simp

lemma pyIntR_mono {x y : ℝ} (h : x ≤ y) : pyIntR x ≤ pyIntR y := by
  unfold pyIntR
  split_ifs with hx hy hy
  · exact Int.floor_le_floor h
  · exact absurd (le_trans hx h) hy
  · have h1 : ⌈x⌉ ≤ (0:ℤ) := Int.ceil_le.mpr (by push_cast; linarith [not_le.mp hx])
    have h2 : (0:ℤ) ≤ ⌊y⌋ := Int.floor_nonneg.mpr hy
    omega
  · exact Int.ceil_le_ceil h

/-- Truncation of a gauge angle from two power bounds on the compensated
value: `10^(m+89) < c^90 ≤ 10^(m+90)` pins `int(90*log10(c) - 90)` to
`m`. -/
lemma pyIntR_gauge_eq {c : ℝ} (hc : 0 < c) {m : ℤ} (hm : m < 0)
    (hlow : (10:ℝ) ^ (m + 89) < c ^ (90:ℕ))
    (hhigh : c ^ (90:ℕ) ≤ (10:ℝ) ^ (m + 90)) :
    pyIntR (gauge_angle c) = m := by
  have h10 : (1:ℝ) < 10 := by norm_num
  have hc90 : (0:ℝ) < c ^ (90:ℕ) := pow_pos hc 90
  have hup : Real.logb 10 (c ^ (90:ℕ)) ≤ ((m + 90 : ℤ) : ℝ) := by
    rw [Real.logb_le_iff_le_rpow h10 hc90, Real.rpow_intCast]
    exact hhigh
  have hlo : ((m + 89 : ℤ) : ℝ) < Real.logb 10 (c ^ (90:ℕ)) := by
    rw [Real.lt_logb_iff_rpow_lt h10 hc90, Real.rpow_intCast]
    exact hlow
  rw [Real.logb_pow] at hup hlo
  push_cast at hup hlo
  rw [gauge_angle_eq]
  have hm1 : (m:ℝ) ≤ -1 := by
    have : m ≤ -1 := by omega
    exact_mod_cast this
  unfold pyIntR
  rw [if_neg (by push_neg; linarith)]
  rw [Int.ceil_eq_iff]
  constructor <;> push_cast <;> linarith

/-- The gauge angle at an exact power of ten. -/
lemma pyIntR_gauge_zpow (k : ℤ) : pyIntR (gauge_angle ((10:ℝ) ^ k)) = 90 * k - 90 := by
  have hL : Real.logb 10 ((10:ℝ) ^ k) = (k:ℝ) := by
    rw [show ((10:ℝ) ^ k) = (10:ℝ) ^ ((k:ℤ):ℝ) from (Real.rpow_intCast 10 k).symm]
    exact Real.logb_rpow (by norm_num) (by norm_num)
  rw [gauge_angle_eq, hL,
    show 90 * (k:ℝ) - 90 = ((90 * k - 90 : ℤ) : ℝ) by push_cast; ring]
  exact pyIntR_intCast _

lemma compensate_cglcd_eval_mid {v : ℝ} (h1 : v < 1) (h2 : ¬(v * 0.9 + 0.1 ≤ 0))
    (h3 : ¬((10.0:ℝ) ≤ v * 0.9 + 0.1)) :
    compensate_cglcd v = v * 0.9 + 0.1 := by
  simp only [compensate_cglcd]
  rw [if_pos h1, if_neg h2, if_neg h3]

lemma compensate_cglcd_eval_floor {v : ℝ} (h1 : v < 1) (h2 : v * 0.9 + 0.1 ≤ 0) :
    compensate_cglcd v = 0.1 := by
  simp only [compensate_cglcd]
  rw [if_pos h1, if_pos h2, if_neg (show ¬((10.0:ℝ) ≤ 0.1) by norm_num)]

lemma compensate_cglcd_eval_id {v : ℝ} (h1 : ¬(v < 1)) (h3 : ¬((10.0:ℝ) ≤ v)) :
    compensate_cglcd v = v := by
  simp only [compensate_cglcd]
  rw [if_neg h1, if_neg (show ¬(v ≤ 0) by push_neg at h1 ⊢; linarith), if_neg h3]

lemma compensate_cglcd_eval_cap {v : ℝ} (h1 : ¬(v < 1)) (h3 : (10.0:ℝ) ≤ v) :
    compensate_cglcd v = 10.0 := by
  simp only [compensate_cglcd]
  rw [if_neg h1, if_neg (show ¬(v ≤ 0) by push_neg at h1 ⊢; linarith), if_pos h3]

lemma compensate_glcd_eval_mid {v : ℝ} (h1 : v < 0.9) (h2 : ¬(v + 0.1 ≤ 0))
    (h3 : ¬((10.0:ℝ) ≤ v + 0.1)) :
    compensate_glcd v = v + 0.1 := by
  simp only [compensate_glcd]
  rw [if_pos h1, if_neg h2, if_neg h3]

lemma compensate_glcd_eval_floor {v : ℝ} (h1 : v < 0.9) (h2 : v + 0.1 ≤ 0) :
    compensate_glcd v = 0.1 := by
  simp only [compensate_glcd]
  rw [if_pos h1, if_pos h2, if_neg (show ¬((10.0:ℝ) ≤ 0.1) by norm_num)]

lemma compensate_glcd_eval_id {v : ℝ} (h1 : ¬(v < 0.9)) (h3 : ¬((10.0:ℝ) ≤ v)) :
    compensate_glcd v = v := by
  simp only [compensate_glcd]
  rw [if_neg h1, if_neg (show ¬(v ≤ 0) by push_neg at h1 ⊢; linarith), if_neg h3]

lemma compensate_glcd_eval_cap {v : ℝ} (h1 : ¬(v < 0.9)) (h3 : (10.0:ℝ) ≤ v) :
    compensate_glcd v = 10.0 := by
  simp only [compensate_glcd]
  rw [if_neg h1, if_neg (show ¬(v ≤ 0) by push_neg at h1 ⊢; linarith), if_pos h3]

lemma loadAngle_cglcd_val_100 : loadAngle_cglcd 100 = -154 := by
  unfold loadAngle_cglcd
  rw [compensate_cglcd_eval_mid (by norm_num) (by norm_num) (by norm_num)]
  rw [show (100:ℝ) / 1000 * 0.9 + 0.1 = 0.19 by norm_num]
  exact pyIntR_gauge_eq (by norm_num) (by norm_num) (by norm_num) (by norm_num)

lemma loadAngle_cglcd_val_1000 : loadAngle_cglcd 1000 = -90 := by
  unfold loadAngle_cglcd
  rw [compensate_cglcd_eval_id (by norm_num) (by norm_num)]
  rw [show (1000:ℝ) / 1000 = (10:ℝ) ^ (0:ℤ) by norm_num]
  rw [pyIntR_gauge_zpow]
  norm_num

lemma loadAngle_cglcd_val_10000 : loadAngle_cglcd 10000 = 0 := by
  unfold loadAngle_cglcd
  rw [compensate_cglcd_eval_cap (by norm_num) (by norm_num)]
  rw [show (10.0:ℝ) = (10:ℝ) ^ (1:ℤ) by norm_num]
  rw [pyIntR_gauge_zpow]
  norm_num

lemma loadAngle_cglcd_val_0 : loadAngle_cglcd 0 = -180 := by
  unfold loadAngle_cglcd
  rw [compensate_cglcd_eval_mid (by norm_num) (by norm_num) (by norm_num)]
  rw [show (0:ℝ) / 1000 * 0.9 + 0.1 = (10:ℝ) ^ (-1:ℤ) by norm_num]
  rw [pyIntR_gauge_zpow]
  norm_num

lemma loadAngle_cglcd_val_neg100 : loadAngle_cglcd (-100) = -270 := by
  unfold loadAngle_cglcd
  rw [compensate_cglcd_eval_mid (by norm_num) (by norm_num) (by norm_num)]
  rw [show (-100:ℝ) / 1000 * 0.9 + 0.1 = (10:ℝ) ^ (-2:ℤ) by norm_num]
  rw [pyIntR_gauge_zpow]
  norm_num

lemma loadAngle_cglcd_val_neg111 : loadAngle_cglcd (-111) = -450 := by
  unfold loadAngle_cglcd
  rw [compensate_cglcd_eval_mid (by norm_num) (by norm_num) (by norm_num)]
  rw [show (-111:ℝ) / 1000 * 0.9 + 0.1 = (10:ℝ) ^ (-4:ℤ) by norm_num]
  rw [pyIntR_gauge_zpow]
  norm_num

lemma loadAngle_cglcd_val_neg112 : loadAngle_cglcd (-112) = -180 := by
  unfold loadAngle_cglcd
  rw [compensate_cglcd_eval_floor (by norm_num) (by norm_num)]
  rw [show (0.1:ℝ) = (10:ℝ) ^ (-1:ℤ) by norm_num]
  rw [pyIntR_gauge_zpow]
  norm_num

lemma pyIntR_hundred : pyIntR (100:ℝ) = 100 := by
  rw [show (100:ℝ) = ((100:ℤ):ℝ) by norm_num, pyIntR_intCast]

lemma loadAngle_glcd_val_100 : loadAngle_glcd 100 = -152 := by
  unfold loadAngle_glcd
  rw [pyIntR_hundred]
  rw [compensate_glcd_eval_mid (by norm_num) (by norm_num) (by norm_num)]
  rw [show ((100:ℤ):ℝ) / 1000 + 0.1 = 0.2 by norm_num]
  exact pyIntR_gauge_eq (by norm_num) (by norm_num) (by norm_num) (by norm_num)

lemma loadAngle_glcd_val_899 : loadAngle_glcd 899 = -90 := by
  unfold loadAngle_glcd
  rw [show (899:ℝ) = ((899:ℤ):ℝ) by norm_num, pyIntR_intCast]
  rw [compensate_glcd_eval_mid (by norm_num) (by norm_num) (by norm_num)]
  rw [show ((899:ℤ):ℝ) / 1000 + 0.1 = 0.999 by norm_num]
  exact pyIntR_gauge_eq (by norm_num) (by norm_num) (by norm_num) (by norm_num)

lemma loadAngle_glcd_val_900 : loadAngle_glcd 900 = -94 := by
  unfold loadAngle_glcd
  rw [show (900:ℝ) = ((900:ℤ):ℝ) by norm_num, pyIntR_intCast]
  rw [compensate_glcd_eval_id (by norm_num) (by norm_num)]
  rw [show ((900:ℤ):ℝ) / 1000 = 0.9 by norm_num]
  exact pyIntR_gauge_eq (by norm_num) (by norm_num) (by norm_num) (by norm_num)

lemma loadAngle_glcd_val_1000 : loadAngle_glcd 1000 = -90 := by
  unfold loadAngle_glcd
  rw [show (1000:ℝ) = ((1000:ℤ):ℝ) by norm_num, pyIntR_intCast]
  rw [compensate_glcd_eval_id (by norm_num) (by norm_num)]
  norm_num
  rw [show (1:ℝ) = (10:ℝ) ^ (0:ℤ) by norm_num]
  rw [pyIntR_gauge_zpow]
  norm_num

lemma loadAngle_glcd_val_10000 : loadAngle_glcd 10000 = 0 := by
  unfold loadAngle_glcd
  rw [show (10000:ℝ) = ((10000:ℤ):ℝ) by norm_num, pyIntR_intCast]
  rw [compensate_glcd_eval_cap (by norm_num) (by norm_num)]
  rw [show (10.0:ℝ) = (10:ℝ) ^ (1:ℤ) by norm_num]
  rw [pyIntR_gauge_zpow]
  norm_num

lemma compensate_cglcd_pos (v : ℝ) : 0 < compensate_cglcd v := by
  simp only [compensate_cglcd]
  split_ifs
  all_goals try norm_num
  all_goals linarith

lemma compensate_glcd_pos (v : ℝ) : 0 < compensate_glcd v := by
  simp only [compensate_glcd]
  split_ifs
  all_goals try norm_num
  all_goals linarith

lemma compensate_cglcd_bounds {v : ℝ} (hv : 0 ≤ v) :
    1 / 10 ≤ compensate_cglcd v ∧ compensate_cglcd v ≤ 10 := by
  simp only [compensate_cglcd]
  constructor
  all_goals split_ifs
  all_goals try norm_num
  all_goals linarith

lemma compensate_glcd_bounds {v : ℝ} (hv : 0 ≤ v) :
    1 / 10 ≤ compensate_glcd v ∧ compensate_glcd v ≤ 10 := by
  simp only [compensate_glcd]
  constructor
  all_goals split_ifs
  all_goals try norm_num
  all_goals linarith

lemma compensate_cglcd_mono {a b : ℝ} (ha : 0 ≤ a) (hab : a ≤ b) :
    compensate_cglcd a ≤ compensate_cglcd b := by
  simp only [compensate_cglcd]
  split_ifs
  all_goals try norm_num
  all_goals linarith

lemma gauge_angle_mono {a b : ℝ} (ha : 0 < a) (hab : a ≤ b) :
    gauge_angle a ≤ gauge_angle b := by
  rw [gauge_angle_eq, gauge_angle_eq]
  have := Real.logb_le_logb_of_le (by norm_num : (1:ℝ) < 10) ha hab
  linarith

lemma loadAngle_bounds_aux {c : ℝ} (h1 : 1 / 10 ≤ c) (h2 : c ≤ 10) :
    -180 ≤ pyIntR (gauge_angle c) ∧ pyIntR (gauge_angle c) ≤ 0 := by
  have hpos : (0:ℝ) < c := by linarith
  have h10 : (1:ℝ) < 10 := by norm_num
  have hL1 : Real.logb 10 c ≤ 1 := by
    rw [Real.logb_le_iff_le_rpow h10 hpos, Real.rpow_one]
    exact h2
  have hL2 : (-1:ℝ) ≤ Real.logb 10 c := by
    rw [Real.le_logb_iff_rpow_le h10 hpos,
      show ((-1:ℝ)) = (((-1:ℤ)):ℝ) by norm_num, Real.rpow_intCast, zpow_neg, zpow_one]
    rw [show ((10:ℝ))⁻¹ = 1 / 10 by norm_num]
    exact h1
  rw [gauge_angle_eq]
  constructor
  · unfold pyIntR
    split_ifs with h
    · exact Int.le_floor.mpr (by push_cast; linarith)
    · have hxle : ((-180:ℤ):ℝ) ≤ 90 * Real.logb 10 c - 90 := by push_cast; linarith
      have hcl : ((-180:ℤ):ℝ) ≤ (⌈(90 * Real.logb 10 c - 90 : ℝ)⌉ : ℝ) :=
        le_trans hxle (Int.le_ceil _)
      exact_mod_cast hcl
  · unfold pyIntR
    split_ifs with h
    · have hfl : ((⌊(90 * Real.logb 10 c - 90 : ℝ)⌋ : ℤ) : ℝ) ≤ 0 :=
        le_trans (Int.floor_le _) (by linarith)
      exact_mod_cast hfl
    · exact Int.ceil_le.mpr (by push_cast; linarith)

lemma pyIntR_nonneg {w : ℝ} (hw : 0 ≤ w) : 0 ≤ pyIntR w := by
  unfold pyIntR
  rw [if_pos hw]
  exact Int.floor_nonneg.mpr hw

/-- C5 counterexample: at 100 W the gauge angle is -154 (color variant,
compensation `v*0.9+0.1`) and -152 (mono variant, compensation `v+0.1`),
not -180; and the computation is not monotonically non-decreasing over its
whole domain: the mono variant drops from -90 at 899 W to -94 at 900 W
(the `v < 0.9` compensation step is discontinuous), and the color variant
drops from -180 at -112 W to -450 at -111 W. -/
theorem C5_angle_counterexample :
    loadAngle_cglcd 100 = -154 ∧ loadAngle_cglcd 100 ≠ -180 ∧
    loadAngle_glcd 100 = -152 ∧ loadAngle_glcd 100 ≠ -180 ∧
    loadAngle_glcd 899 = -90 ∧ loadAngle_glcd 900 = -94 ∧
    loadAngle_glcd 900 < loadAngle_glcd 899 ∧
    loadAngle_cglcd (-112) = -180 ∧ loadAngle_cglcd (-111) = -450 ∧
    loadAngle_cglcd (-111) < loadAngle_cglcd (-112) := by
  refine ⟨loadAngle_cglcd_val_100, ?_, loadAngle_glcd_val_100, ?_,
    loadAngle_glcd_val_899, loadAngle_glcd_val_900, ?_, loadAngle_cglcd_val_neg112,
    loadAngle_cglcd_val_neg111, ?_⟩
  · rw [loadAngle_cglcd_val_100]
    norm_num
  · rw [loadAngle_glcd_val_100]
    norm_num
  · rw [loadAngle_glcd_val_900, loadAngle_glcd_val_899]
    norm_num
  · rw [loadAngle_cglcd_val_neg111, loadAngle_cglcd_val_neg112]
    norm_num

/-- C5 (amended): the gauge-angle computation yields -90 at 1000 W and 0 at
10000 W in both variants, but at 100 W it yields -154 (color) and -152
(mono) — the -180 end of the sweep is reached at 0 W — and it is
monotonically non-decreasing only on nonnegative watt values in the color
variant (the mono variant is non-monotone at 899/900 W and both variants
are non-monotone on negative values, see the counterexample). -/
theorem C5_gauge_values :
    loadAngle_cglcd 1000 = -90 ∧ loadAngle_glcd 1000 = -90 ∧
    loadAngle_cglcd 10000 = 0 ∧ loadAngle_glcd 10000 = 0 ∧
    loadAngle_cglcd 100 = -154 ∧ loadAngle_glcd 100 = -152 ∧
    loadAngle_cglcd 0 = -180 ∧
    (∀ x y : ℝ, 0 ≤ x → x ≤ y → loadAngle_cglcd x ≤ loadAngle_cglcd y) := by
  refine ⟨loadAngle_cglcd_val_1000, loadAngle_glcd_val_1000, loadAngle_cglcd_val_10000,
    loadAngle_glcd_val_10000, loadAngle_cglcd_val_100, loadAngle_glcd_val_100,
    loadAngle_cglcd_val_0, ?_⟩
  intro x y hx hxy
  unfold loadAngle_cglcd
  apply pyIntR_mono
  apply gauge_angle_mono (compensate_cglcd_pos _)
  exact compensate_cglcd_mono (by linarith) (by linarith)

theorem C5_gauge_values_witness :
    (0:ℝ) ≤ 100 ∧ (100:ℝ) ≤ 1000 ∧ loadAngle_cglcd 100 ≤ loadAngle_cglcd 1000 :=
  ⟨by norm_num, by norm_num,
    C5_gauge_values.2.2.2.2.2.2.2 100 1000 (by norm_num) (by norm_num)⟩

/-- C6 counterexample: the compensated value is NOT clamped to
[0.1, 10.0] — only non-positive results are floored — so a computed load
of -100 W compensates to 0.01 kW, reaches log10 unclamped and produces the
end angle -270, outside [-180, 0]. -/
theorem C6_clamp_counterexample :
    compensate_cglcd ((-100) / 1000) = 0.01 ∧
    ¬((1 / 10 : ℝ) ≤ compensate_cglcd ((-100) / 1000)) ∧
    loadAngle_cglcd (-100) = -270 ∧
    ¬((-180:ℤ) ≤ loadAngle_cglcd (-100)) := by
  have hc : compensate_cglcd ((-100:ℝ) / 1000) = 0.01 := by
    rw [compensate_cglcd_eval_mid (by norm_num) (by norm_num) (by norm_num)]
    norm_num
  refine ⟨hc, ?_, loadAngle_cglcd_val_neg100, ?_⟩
  · rw [hc]
    norm_num
  · rw [loadAngle_cglcd_val_neg100]
    norm_num

/-- C6 (amended): after compensation, values ≤ 0 are replaced by 0.1 and
values ≥ 10 by 10, so log10 never receives a non-positive argument for any
real input in either variant; but values in (0, 0.1) pass unclamped, so
only for nonnegative watt inputs is the compensated value guaranteed in
[0.1, 10] and the end angle in [-180, 0]. -/
theorem C6_log_safety :
    (∀ v : ℝ, 0 < compensate_cglcd v) ∧
    (∀ v : ℝ, 0 < compensate_glcd v) ∧
    (∀ w : ℝ, 0 ≤ w →
      1 / 10 ≤ compensate_cglcd (w / 1000) ∧ compensate_cglcd (w / 1000) ≤ 10 ∧
      -180 ≤ loadAngle_cglcd w ∧ loadAngle_cglcd w ≤ 0) ∧
    (∀ w : ℝ, 0 ≤ w → -180 ≤ loadAngle_glcd w ∧ loadAngle_glcd w ≤ 0) := by
  refine ⟨compensate_cglcd_pos, compensate_glcd_pos, ?_, ?_⟩
  · intro w hw
    have hb := compensate_cglcd_bounds (v := w / 1000) (by linarith)
    have ha := loadAngle_bounds_aux hb.1 hb.2
    unfold loadAngle_cglcd
    exact ⟨hb.1, hb.2, ha.1, ha.2⟩
  · intro w hw
    have h0 : (0:ℤ) ≤ pyIntR w := pyIntR_nonneg hw
    have hz : (0:ℝ) ≤ ((pyIntR w : ℤ) : ℝ) / 1000 := by
      have hcast : (0:ℝ) ≤ ((pyIntR w : ℤ) : ℝ) := by exact_mod_cast h0
      linarith
    have hb := compensate_glcd_bounds hz
    unfold loadAngle_glcd
    exact loadAngle_bounds_aux hb.1 hb.2

theorem C6_log_safety_witness :
    (0:ℝ) ≤ 0 ∧ -180 ≤ loadAngle_cglcd 0 ∧ loadAngle_cglcd 0 ≤ 0 :=
  ⟨le_refl 0, (C6_log_safety.2.2.1 0 (le_refl 0)).2.2.1,
    (C6_log_safety.2.2.1 0 (le_refl 0)).2.2.2⟩

end PyModMonLCD
